import Mathlib

/-!
Shallow embedding of the per-lead orchestration engine of
fastapi-langgraph-poc (backend/app/orchestrator/{state,nodes,a2a_nodes,graph}.py).

Python dicts with string values are modelled as association lists, Python
lists as Lean lists, in-place `list.append` as `++ [entry]`, and the external
capabilities (OpenAI generation, SMS delivery) as oracle values carried in an
explicit environment.  A raised Python exception from a capability is an
`Except.error`, matching the try/except blocks of the nodes.  Wall-clock data
(`datetime.now()`) is part of the environment.
-/

set_option maxHeartbeats 1000000

namespace Orchestrator

/-- Association-list model of a Python `Dict[str, str]`-ish mapping. -/
abbrev Dict := List (String × String)

/-- `d.get(k)` with the falsy default `""` (missing key and empty string
    are indistinguishable under Python truthiness, which is all the
    orchestrator code observes). -/
def dget (d : Dict) (k : String) : String :=
  match d.find? (fun p => p.1 == k) with
  | some p => p.2
  | none => ""

/-- Python `{**a, **b}`: keys of `b` override keys of `a`. -/
def dmerge (a b : Dict) : Dict :=
  a.filter (fun p => !(b.any (fun q => q.1 == p.1))) ++ b

/-- One entry of `state['processing_logs']`. -/
structure LogEntry where
  node : String
  timestamp : String
  message : String
  payload : List (String × String)
deriving DecidableEq, Repr

/-- One entry of `state['conversation_history']` (absent keys become `""`). -/
structure ConvEntry where
  role : String
  agent : String
  agent_id : String
  content : String
  metadata : List (String × String)
deriving DecidableEq, Repr

/-- CampaignLeadState (state.py).  The three Annotated accumulator fields
    (validation_errors, processing_logs, conversation_history) are ordinary
    lists here; the nodes themselves only ever append to the log/history
    lists, which is what claim C3 is about. -/
structure CampaignLeadState where
  campaign_lead_id : String
  campaign_id : String
  lead_id : String
  lead_data : Dict
  agent_type : String
  use_a2a : Bool
  creative_agent_id : String
  creative_agent_prompt : String
  creative_agent_model : String
  deterministic_agent_id : String
  deterministic_agent_prompt : String
  deterministic_agent_model : String
  deterministic_agent_tools : List String
  sms_system_prompt : String
  sms_temperature : Rat
  validation_passed : Bool
  validation_errors : List String
  sms_sent : Bool
  sms_message : String
  sms_error : String
  sms_cost : Rat
  voice_call_made : Bool
  voice_call_id : String
  voice_error : String
  voice_cost : Rat
  enrichment_data : Dict
  enrichment_error : String
  processing_logs : List LogEntry
  conversation_history : List ConvEntry
  trace_id : String
  status : String
  error_message : String
deriving DecidableEq, Repr

/-- The working-hours part of app.config.Settings. -/
structure Settings where
  enforce_working_hours : Bool
  working_hours_start : Nat
  working_hours_end : Nat
  allow_weekend_sending : Bool
deriving DecidableEq, Repr

/-- Result dict of OpenAIService message generation
    ({success, message, cost, error}); absent message/cost already
    defaulted, absent error kept as `none` because the two call sites use
    different defaults. -/
structure GenResult where
  success : Bool
  message : String
  cost : Rat
  error : Option String
deriving DecidableEq, Repr

/-- Result dict of SMSService.send_sms ({success, error?}). -/
structure SendResult where
  success : Bool
  error : String
deriving DecidableEq, Repr

/-- Per-run environment: settings, wall clock, and the outcome each external
    capability would produce if called (`Except.error` = raised exception). -/
structure Env where
  settings : Settings
  hour : Nat
  weekday : Nat
  now_iso : String
  gen_sms : Except String GenResult
  send_sms : Except String SendResult
  gen_creative : Except String GenResult
  send_det : Except String SendResult

def dayName (w : Nat) : String :=
  (["Mon", "Tue", "Wed", "Thu", "Fri", "Sat", "Sun"].getD w "")

/-- The list of validation errors computed by validate_lead_node
    (nodes.py lines 16-36), in source order. -/
def validation_errors_of (env : Env) (s : CampaignLeadState) : List String :=
  (if dget s.lead_data "phone" == "" then ["Missing phone number"] else [])
  ++ (if dget s.lead_data "name" == "" then ["Missing name"] else [])
  ++ (if env.settings.enforce_working_hours then
        (if !env.settings.allow_weekend_sending && decide (5 ≤ env.weekday) then
          ["Weekend sending disabled (current day: " ++ dayName env.weekday ++ ")"]
        else [])
        ++ (if env.settings.working_hours_start ≤ env.hour ∧
              env.hour < env.settings.working_hours_end then []
            else ["Outside working hours (current: " ++ toString env.hour
                  ++ ":00, allowed: " ++ toString env.settings.working_hours_start
                  ++ ":00-" ++ toString env.settings.working_hours_end ++ ":00)"])
      else [])

/-- validate_lead_node (nodes.py 11-50). -/
def validate_lead_node (env : Env) (s : CampaignLeadState) : CampaignLeadState :=
  let errors := validation_errors_of env s
  let passed := errors.isEmpty
  { s with
    validation_passed := passed
    validation_errors := errors
    processing_logs := s.processing_logs ++
      [{ node := "validate_lead"
         timestamp := env.now_iso
         message := "Validation " ++ (if passed then "passed" else "failed")
         payload := [("errors", String.intercalate "; " errors)] }] }

/-- finalize_node (nodes.py 202-242). -/
def finalize_node (env : Env) (s : CampaignLeadState) : CampaignLeadState :=
  let s1 :=
    if !s.validation_passed then
      { s with status := "failed"
               error_message := String.intercalate "; " s.validation_errors }
    else if s.agent_type == "sms" then
      if s.sms_sent then { s with status := "completed" }
      else { s with status := "failed", error_message := s.sms_error }
    else if s.agent_type == "voice" then
      if s.voice_call_made then { s with status := "completed" }
      else { s with status := "failed", error_message := s.voice_error }
    else if s.agent_type == "both" then
      if s.sms_sent && s.voice_call_made then { s with status := "completed" }
      else
        { s with status := "failed"
                 error_message := String.intercalate "; "
                   ((if !s.sms_sent then ["SMS: " ++ s.sms_error] else [])
                    ++ (if !s.voice_call_made then ["Voice: " ++ s.voice_error] else [])) }
    else s
  { s1 with
    processing_logs := s1.processing_logs ++
      [{ node := "finalize"
         timestamp := env.now_iso
         message := "Processing " ++ s1.status
         payload := [("final_status", s1.status)] }] }

/-- route_after_validation (nodes.py 245-259). -/
def route_after_validation (s : CampaignLeadState) : String :=
  if !s.validation_passed then "finalize"
  else if s.agent_type == "sms" then "sms_only"
  else if s.agent_type == "voice" then "voice_only"
  else "sms_first"

/-- route_after_sms (nodes.py 262-269). -/
def route_after_sms (s : CampaignLeadState) : String :=
  if s.agent_type == "both" then "voice" else "finalize"

/-- sms_agent_node (nodes.py 53-133).  The try/except wraps the two
    capability calls; a raised exception lands in the final branch with the
    state mutations already performed up to the raise point. -/
def sms_agent_node (env : Env) (s : CampaignLeadState) : CampaignLeadState :=
  match env.gen_sms with
  | Except.error e =>
    { s with sms_sent := false, sms_error := e, sms_cost := 0
             processing_logs := s.processing_logs ++
               [{ node := "sms_agent", timestamp := env.now_iso
                  message := "SMS processing failed", payload := [("error", e)] }] }
  | Except.ok r =>
    if !r.success then
      let err := r.error.getD "SMS generation failed"
      { s with sms_message := "", sms_sent := false, sms_error := err, sms_cost := 0
               processing_logs := s.processing_logs ++
                 [{ node := "sms_agent", timestamp := env.now_iso
                    message := "SMS generation failed", payload := [("error", err)] }] }
    else
      let s1 : CampaignLeadState := { s with
        sms_message := r.message
        sms_cost := r.cost
        conversation_history := s.conversation_history ++
          [{ role := "system", agent := "", agent_id := ""
             content := s.sms_system_prompt
             metadata := [("node", "sms_agent"), ("step", "system_prompt")] },
           { role := "assistant", agent := "", agent_id := ""
             content := r.message
             metadata := [("node", "sms_agent"), ("step", "generated_message"),
                          ("cost", toString r.cost)] }] }
      match env.send_sms with
      | Except.error e =>
        { s1 with sms_sent := false, sms_error := e, sms_cost := 0
                  processing_logs := s1.processing_logs ++
                    [{ node := "sms_agent", timestamp := env.now_iso
                       message := "SMS processing failed", payload := [("error", e)] }] }
      | Except.ok sr =>
        { s1 with sms_sent := sr.success, sms_error := sr.error
                  processing_logs := s1.processing_logs ++
                    [{ node := "sms_agent", timestamp := env.now_iso
                       message := "SMS " ++ (if sr.success then "sent" else "failed")
                       payload := [("sms_message", r.message.take 100),
                                   ("error", sr.error)] }] }

/-- voice_agent_node (nodes.py 136-155), mocked in the source. -/
def voice_agent_node (env : Env) (s : CampaignLeadState) : CampaignLeadState :=
  { s with
    voice_call_made := true
    voice_call_id := "mock_call_" ++ s.lead_id
    voice_error := ""
    voice_cost := 0
    processing_logs := s.processing_logs ++
      [{ node := "voice_agent", timestamp := env.now_iso
         message := "Voice call initiated (mocked)"
         payload := [("call_id", "mock_call_" ++ s.lead_id)] }] }

/-- enrichment_node (nodes.py 158-199), mocked in the source. -/
def enrichment_node (env : Env) (s : CampaignLeadState) : CampaignLeadState :=
  let enriched : Dict :=
    if dget s.lead_data "company" == "" then []
    else [("industry", "Technology"), ("size", "100-500"),
          ("location", "San Francisco, CA")]
  { s with
    enrichment_data := enriched
    enrichment_error := ""
    lead_data := dmerge s.lead_data enriched
    processing_logs := s.processing_logs ++
      [{ node := "enrichment_node", timestamp := env.now_iso
         message := "Data enrichment successful", payload := [] }] }

/-- a2a_creative_agent_node (a2a_nodes.py 11-92).  On failure or raise the
    message field is left untouched (only sms_error is set). -/
def a2a_creative_agent_node (env : Env) (s : CampaignLeadState) : CampaignLeadState :=
  if !s.use_a2a then s
  else
    match env.gen_creative with
    | Except.error e =>
      { s with sms_error := e
               processing_logs := s.processing_logs ++
                 [{ node := "a2a_creative_agent", timestamp := env.now_iso
                    message := "Creative agent processing failed"
                    payload := [("error", e)] }] }
    | Except.ok r =>
      if !r.success then
        let err := r.error.getD "Creative agent failed"
        { s with sms_error := err
                 processing_logs := s.processing_logs ++
                   [{ node := "a2a_creative_agent", timestamp := env.now_iso
                      message := "Creative agent failed"
                      payload := [("error", err)] }] }
      else
        { s with
          sms_message := r.message
          sms_cost := r.cost
          conversation_history := s.conversation_history ++
            [{ role := "assistant", agent := "creative"
               agent_id := s.creative_agent_id
               content := r.message
               metadata := [("node", "a2a_creative_agent"),
                            ("cost", toString r.cost),
                            ("model", s.creative_agent_model)] }]
          processing_logs := s.processing_logs ++
            [{ node := "a2a_creative_agent", timestamp := env.now_iso
               message := "Creative agent generated message"
               payload := [("message_preview", r.message.take 100)] }] }

/-- a2a_deterministic_agent_node (a2a_nodes.py 95-171). -/
def a2a_deterministic_agent_node (env : Env) (s : CampaignLeadState) : CampaignLeadState :=
  if !s.use_a2a then s
  else if s.sms_message == "" then s
  else
    match env.send_det with
    | Except.error e =>
      { s with sms_error := e
               processing_logs := s.processing_logs ++
                 [{ node := "a2a_deterministic_agent", timestamp := env.now_iso
                    message := "Deterministic agent processing failed"
                    payload := [("error", e)] }] }
    | Except.ok sr =>
      { s with
        sms_sent := sr.success
        sms_error := if !sr.success then sr.error else ""
        conversation_history := s.conversation_history ++
          [{ role := "tool", agent := "deterministic"
             agent_id := s.deterministic_agent_id
             content := "SMS sent to " ++ dget s.lead_data "phone"
             metadata := [("node", "a2a_deterministic_agent"),
                          ("tool", "send_sms"),
                          ("success", toString sr.success),
                          ("error", sr.error)] }]
        processing_logs := s.processing_logs ++
          [{ node := "a2a_deterministic_agent", timestamp := env.now_iso
             message := "SMS " ++ (if sr.success then "sent" else "failed")
             payload := [("tool", "send_sms"), ("success", toString sr.success)] }] }

/-- a2a_handoff_node (a2a_nodes.py 174-189): pure bookkeeping. -/
def a2a_handoff_node (env : Env) (s : CampaignLeadState) : CampaignLeadState :=
  { s with
    processing_logs := s.processing_logs ++
      [{ node := "a2a_handoff", timestamp := env.now_iso
         message := "Agent handoff coordination"
         payload := [("creative_complete", toString (!(s.sms_message == ""))),
                     ("deterministic_complete", toString s.sms_sent)] }] }

/-- route_a2a_workflow (a2a_nodes.py 192-213). -/
def route_a2a_workflow (s : CampaignLeadState) : String :=
  if !s.validation_passed then "finalize"
  else if s.sms_message == "" then "creative"
  else if !(s.sms_message == "") && !s.sms_sent then "deterministic"
  else "finalize"

/-! ### Graph representation and execution

A compiled StateGraph is modelled as its node table, its conditional edges
(source, router, label-to-target mapping) and plain edges, with the special
target "__end__" standing for langgraph's END.  The executor walks the
graph: run the current node, consult its conditional edge first (a node has
at most one in all three builders), else its plain edge; a router label
missing from the mapping is a runtime routing error, as in langgraph. -/

structure CondEdge where
  src : String
  router : CampaignLeadState → String
  mapping : List (String × String)

structure Graph where
  nodes : List (String × (CampaignLeadState → CampaignLeadState))
  condEdges : List CondEdge
  edges : List (String × String)
  entry : String

/-- How a graph walk ended. -/
inductive Halt where
  /-- Reached the END sentinel normally. -/
  | reachedEnd
  /-- The current node name has no entry in the node table. -/
  | missingNode (node : String)
  /-- The executed node has no outgoing edge at all. -/
  | noEdge (node : String)
  /-- A conditional router produced a label absent from its mapping:
      langgraph raises here. -/
  | badLabel (node : String) (label : String)
  /-- Fuel ran out. -/
  | noFuel
deriving DecidableEq, Repr

structure RunOutcome where
  halt : Halt
  state : CampaignLeadState
  trace : List String

/-- Walk the graph for at most `fuel` node executions, recording the names
    of the nodes executed, in order, in the trace. -/
def runFrom (g : Graph) : Nat → String → CampaignLeadState → List String → RunOutcome
  | 0, _, s, tr => ⟨Halt.noFuel, s, tr⟩
  | Nat.succ fuel, cur, s, tr =>
    match g.nodes.find? (fun p => p.1 == cur) with
    | none => ⟨Halt.missingNode cur, s, tr⟩
    | some p =>
      let s2 := p.2 s
      let tr2 := tr ++ [cur]
      match g.condEdges.find? (fun c => c.src == cur) with
      | some c =>
        match c.mapping.find? (fun m => m.1 == c.router s2) with
        | none => ⟨Halt.badLabel cur (c.router s2), s2, tr2⟩
        | some m =>
          if m.2 == "__end__" then ⟨Halt.reachedEnd, s2, tr2⟩
          else runFrom g fuel m.2 s2 tr2
      | none =>
        match g.edges.find? (fun e => e.1 == cur) with
        | none => ⟨Halt.noEdge cur, s2, tr2⟩
        | some e =>
          if e.2 == "__end__" then ⟨Halt.reachedEnd, s2, tr2⟩
          else runFrom g fuel e.2 s2 tr2

def runGraph (g : Graph) (fuel : Nat) (s : CampaignLeadState) : RunOutcome :=
  runFrom g fuel g.entry s []

/-- create_campaign_lead_graph (graph.py 30-77): the static single-agent
    topology. -/
def create_campaign_lead_graph (env : Env) : Graph where
  nodes := [("validate", validate_lead_node env),
            ("sms_agent", sms_agent_node env),
            ("voice_agent", voice_agent_node env),
            ("finalize", finalize_node env)]
  condEdges := [{ src := "validate", router := route_after_validation
                  mapping := [("sms_only", "sms_agent"), ("voice_only", "voice_agent"),
                              ("sms_first", "sms_agent"), ("finalize", "finalize")] },
                { src := "sms_agent", router := route_after_sms
                  mapping := [("voice", "voice_agent"), ("finalize", "finalize")] }]
  edges := [("voice_agent", "finalize"), ("finalize", "__end__")]
  entry := "validate"

/-- create_a2a_campaign_lead_graph (graph.py 80-128): the dual-agent
    topology.  The same router route_a2a_workflow is wired at both
    conditional-edge points, with different (partial) mappings. -/
def create_a2a_campaign_lead_graph (env : Env) : Graph where
  nodes := [("validate", validate_lead_node env),
            ("creative_agent", a2a_creative_agent_node env),
            ("deterministic_agent", a2a_deterministic_agent_node env),
            ("handoff", a2a_handoff_node env),
            ("finalize", finalize_node env)]
  condEdges := [{ src := "validate", router := route_a2a_workflow
                  mapping := [("creative", "creative_agent"), ("finalize", "finalize")] },
                { src := "handoff", router := route_a2a_workflow
                  mapping := [("deterministic", "deterministic_agent"),
                              ("finalize", "finalize")] }]
  edges := [("creative_agent", "handoff"), ("deterministic_agent", "finalize"),
            ("finalize", "__end__")]
  entry := "validate"

/-! ### Dynamic graph construction (graph.py 131-211)

The serialised workflow description and the construction algorithm.  The two
Python for-loops build the node mapping and the edge lists incrementally;
they are translated here as order-preserving filterMaps over the same input
lists, one per produced component. -/

structure WNode where
  id : String
  label : String
  ntype : Option String
deriving DecidableEq, Repr

structure WEdge where
  source : String
  target : String
deriving DecidableEq, Repr

structure WorkflowConfig where
  nodes : List WNode
  edges : List WEdge
deriving DecidableEq, Repr

def listLeads : List Char → List Char → Bool
  | [], _ => true
  | _ :: _, [] => false
  | a :: as, b :: bs => a == b && listLeads as bs

def subChars : List Char → List Char → Bool
  | n, [] => n.isEmpty
  | n, c :: rest => listLeads n (c :: rest) || subChars n rest

/-- Python `needle in hay` on strings. -/
def substrOf (needle hay : String) : Bool := subChars needle.toList hay.toList

def lowerStr (s : String) : String := String.mk (s.data.map Char.toLower)

/-- Is this node a start marker (skipped; its outgoing edge names the entry
    point)? -/
def isStartNode (n : WNode) : Bool :=
  substrOf "start" (lowerStr n.label) || n.ntype == some "input"

/-- The label-classification of the node loop (graph.py 144-168): `none`
    both for start markers and for unrecognized labels (the latter are the
    warned-and-skipped case). -/
def classify_node (n : WNode) : Option String :=
  let label := lowerStr n.label
  if substrOf "start" label || n.ntype == some "input" then none
  else if substrOf "end" label || n.ntype == some "output" then some "finalize"
  else if substrOf "validate" label then some "validate"
  else if substrOf "sms" label then some "sms_agent"
  else if substrOf "voice" label then some "voice_agent"
  else if substrOf "enrich" label then some "enrichment"
  else none

/-- node_mapping: visual id -> graph node name. -/
def dyn_node_mapping (cfg : WorkflowConfig) : List (String × String) :=
  cfg.nodes.filterMap (fun n => (classify_node n).map (fun k => (n.id, k)))

def mlookup (m : List (String × String)) (k : String) : Option String :=
  (m.find? (fun p => p.1 == k)).map (fun p => p.2)

/-- The node function registered under each graph node name. -/
def dyn_node_fn (env : Env) (k : String) : CampaignLeadState → CampaignLeadState :=
  if k == "validate" then validate_lead_node env
  else if k == "sms_agent" then sms_agent_node env
  else if k == "voice_agent" then voice_agent_node env
  else if k == "enrichment" then enrichment_node env
  else finalize_node env

/-- Is the edge source a start marker (graph.py 179-180)? -/
def isStartSource (cfg : WorkflowConfig) (srcId : String) : Bool :=
  match cfg.nodes.find? (fun n => n.id == srcId) with
  | some n => n.ntype == some "input" || substrOf "start" (lowerStr n.label)
  | none => false

/-- Entry-point contribution of one config edge: the mapped target of a
    start-marker edge (graph.py 178-183). -/
def dyn_entry_contrib (cfg : WorkflowConfig) (e : WEdge) : Option String :=
  if isStartSource cfg e.source then mlookup (dyn_node_mapping cfg) e.target
  else none

/-- Entry point: the target of the last start-marker edge whose target is
    mapped, defaulting to "validate" (graph.py 171-206). -/
def dyn_entry (cfg : WorkflowConfig) : String :=
  ((cfg.edges.filterMap (dyn_entry_contrib cfg)).getLast?).getD "validate"

/-- Conditional-edge contribution of one config edge: edges out of a
    validate-mapped node close the router over their target
    (graph.py 189-198). -/
def dyn_cond_contrib (cfg : WorkflowConfig) (e : WEdge) : Option CondEdge :=
  if isStartSource cfg e.source then none
  else
    match mlookup (dyn_node_mapping cfg) e.source,
          mlookup (dyn_node_mapping cfg) e.target with
    | some sname, some tname =>
      if sname == "validate" then
        some { src := "validate"
               router := fun st => if st.validation_passed then tname else "finalize"
               mapping := [(tname, tname), ("finalize", "finalize")] }
      else none
    | _, _ => none

def dyn_cond_edges (cfg : WorkflowConfig) : List CondEdge :=
  cfg.edges.filterMap (dyn_cond_contrib cfg)

/-- Plain-edge contribution of one config edge (graph.py 199-200). -/
def dyn_plain_contrib (cfg : WorkflowConfig) (e : WEdge) : Option (String × String) :=
  if isStartSource cfg e.source then none
  else
    match mlookup (dyn_node_mapping cfg) e.source,
          mlookup (dyn_node_mapping cfg) e.target with
    | some sname, some tname =>
      if sname == "validate" then none else some (sname, tname)
    | _, _ => none

/-- Plain edges: the per-edge contributions plus the always-appended
    finalize -> END (graph.py 208-209). -/
def dyn_plain_edges (cfg : WorkflowConfig) : List (String × String) :=
  (cfg.edges.filterMap (dyn_plain_contrib cfg)) ++ [("finalize", "__end__")]

/-- create_dynamic_campaign_lead_graph, assembly phase (graph.py 133-209):
    the StateGraph built by the node and edge loops.  The final
    workflow.compile() of line 211 adds nothing to the graph but runs
    langgraph's compile-time validation; that step is modelled by
    graph_compile below, and the whole source function by
    create_dynamic_campaign_lead_graph_compiled. -/
def create_dynamic_campaign_lead_graph (env : Env) (cfg : WorkflowConfig) : Graph where
  nodes := cfg.nodes.filterMap (fun n =>
    (classify_node n).map (fun k => (k, dyn_node_fn env k)))
  condEdges := dyn_cond_edges cfg
  edges := dyn_plain_edges cfg
  entry := dyn_entry cfg

/-- Names of the nodes registered in a graph. -/
def graph_node_names (g : Graph) : List String := g.nodes.map (fun p => p.1)

/-- Names that occur as the source of a plain edge or of a conditional
    branch.  (The implicit START node added by set_entry_point is not a
    registered node, so it plays no role in the per-node checks below.) -/
def graph_sources (g : Graph) : List String :=
  g.edges.map (fun e => e.1) ++ g.condEdges.map (fun c => c.src)

/-- Names that occur as the target of a plain edge or of a conditional
    branch, plus the entry point (the target of the implicit START edge). -/
def graph_targets (g : Graph) : List String :=
  g.edges.map (fun e => e.2) ++
  (g.condEdges.map (fun c => c.mapping.map (fun m => m.2))).flatten ++ [g.entry]

/-- Model of langgraph's compile-time validation: StateGraph.compile()
    invokes Graph.validate(), which raises ValueError when a registered
    node is the source of no edge or branch ("dead-end"), when an edge
    starts at an unregistered name, when a registered node is the target
    of no edge, branch or entry point ("not reachable"), or when an edge
    ends at an unregistered name other than END.  Only acceptance versus
    rejection is relied upon by the theorems below, not the order in which
    a multiply-invalid graph trips these checks. -/
def graph_compile (g : Graph) : Except String Graph :=
  match (graph_node_names g).find? (fun n => !((graph_sources g).contains n)) with
  | some n => Except.error ("Node `" ++ n ++ "` is a dead-end")
  | none =>
    match (graph_sources g).find? (fun s => !((graph_node_names g).contains s)) with
    | some s => Except.error ("Found edge starting at unknown node `" ++ s ++ "`")
    | none =>
      match (graph_node_names g).find? (fun n => !((graph_targets g).contains n)) with
      | some n => Except.error ("Node `" ++ n ++ "` is not reachable")
      | none =>
        match (graph_targets g).find? (fun t =>
            !((graph_node_names g).contains t) && !(t == "__end__")) with
        | some t => Except.error ("Found edge ending at unknown node `" ++ t ++ "`")
        | none => Except.ok g

/-- create_dynamic_campaign_lead_graph including its final
    workflow.compile() (graph.py 131-211): the assembled graph passed
    through compile-time validation; Except.error is the ValueError
    compile() raises, caught only at the coordinator boundary. -/
def create_dynamic_campaign_lead_graph_compiled (env : Env) (cfg : WorkflowConfig) :
    Except String Graph :=
  graph_compile (create_dynamic_campaign_lead_graph env cfg)

/-- Did construction produce a compiled graph (true) or abort (false)? -/
def exceptOk : Except String Graph → Bool
  | Except.ok _ => true
  | Except.error _ => false

/-! ### Persisted entities and the Run Coordinator (graph.py 214-442) -/

structure Agent where
  system_prompt : String
  model : String
  tools : List String
deriving DecidableEq, Repr

structure Campaign where
  id : Nat
  name : String
  agent_type : String
  creative_agent_id : Option Nat
  creative_agent : Option Agent
  deterministic_agent_id : Option Nat
  deterministic_agent : Option Agent
  agent_id : Option Nat
  agent : Option Agent
  sms_system_prompt : Option String
  sms_temperature : Nat
  workflow_config : Option WorkflowConfig
deriving DecidableEq, Repr

structure Lead where
  id : Nat
  name : String
  phone : String
  email : Option String
  company : Option String
  notes : Option String
deriving DecidableEq, Repr

/-- Persisted CampaignLead row, with its ORM relationships attached. -/
structure CampaignLeadRow where
  id : Nat
  campaign : Campaign
  lead : Lead
  status : String
  sms_sent : Bool
  sms_message : String
  voice_call_made : Bool
  error_message : String
  trace_id : String
  processed_at : Option String
deriving DecidableEq, Repr

/-- Python truthiness of a nullable integer column. -/
def natTruthy : Option Nat → Bool
  | none => false
  | some n => n != 0

def optStr : Option String → String
  | none => ""
  | some v => v

/-- Python `str(x) if x else ''` for a nullable integer id. -/
def idStr : Option Nat → String
  | none => ""
  | some n => if n != 0 then toString n else ""

/-- initialize_lead_state (graph.py 214-298). -/
def initialize_lead_state (campaign_lead : CampaignLeadRow) (campaign : Campaign)
    (lead : Lead) : CampaignLeadState where
  campaign_lead_id := toString campaign_lead.id
  campaign_id := toString campaign.id
  lead_id := toString lead.id
  lead_data := [("name", lead.name), ("phone", lead.phone),
                ("email", optStr lead.email), ("company", optStr lead.company),
                ("notes", optStr lead.notes)]
  agent_type := campaign.agent_type
  use_a2a := natTruthy campaign.creative_agent_id &&
             natTruthy campaign.deterministic_agent_id
  creative_agent_id := idStr campaign.creative_agent_id
  creative_agent_prompt :=
    match natTruthy campaign.creative_agent_id, campaign.creative_agent with
    | true, some a => a.system_prompt
    | _, _ => "You are a creative sales assistant focused on engaging conversation."
  creative_agent_model :=
    match natTruthy campaign.creative_agent_id, campaign.creative_agent with
    | true, some a => a.model
    | _, _ => "gpt-4o"
  deterministic_agent_id := idStr campaign.deterministic_agent_id
  deterministic_agent_prompt :=
    match natTruthy campaign.deterministic_agent_id, campaign.deterministic_agent with
    | true, some a => a.system_prompt
    | _, _ => "You are a deterministic assistant focused on executing tools and actions."
  deterministic_agent_model :=
    match natTruthy campaign.deterministic_agent_id, campaign.deterministic_agent with
    | true, some a => a.model
    | _, _ => "gpt-4o"
  deterministic_agent_tools :=
    match natTruthy campaign.deterministic_agent_id, campaign.deterministic_agent with
    | true, some a => a.tools
    | _, _ => []
  sms_system_prompt :=
    match natTruthy campaign.agent_id, campaign.agent with
    | true, some a => a.system_prompt
    | _, _ =>
      match campaign.sms_system_prompt with
      | some p => if p == "" then "You are a helpful sales assistant." else p
      | none => "You are a helpful sales assistant."
  sms_temperature := (campaign.sms_temperature : Rat) / 100
  validation_passed := false
  validation_errors := []
  sms_sent := false
  sms_message := ""
  sms_error := ""
  sms_cost := 0
  voice_call_made := false
  voice_call_id := ""
  voice_error := ""
  voice_cost := 0
  enrichment_data := []
  enrichment_error := ""
  processing_logs := []
  conversation_history := []
  trace_id := ""
  status := "pending"
  error_message := ""

inductive Topology where
  | a2a
  | dyn
  | stat
deriving DecidableEq, Repr

/-- The coordinator's graph selection (graph.py 337-347):
    A2A > dynamic > static. -/
def selected_topology (initial_state : CampaignLeadState) (campaign : Campaign) :
    Topology :=
  if initial_state.use_a2a then Topology.a2a
  else if campaign.workflow_config.isSome then Topology.dyn
  else Topology.stat

/-- The dict returned by process_campaign_lead_with_graph; the exception
    branch returns no sms_sent/voice_call_made keys, hence the Options. -/
structure RunResult where
  success : Bool
  status : String
  sms_sent : Option Bool
  voice_call_made : Option Bool
  error_message : String
deriving DecidableEq, Repr

/-- The persistence-visible world: the CampaignLead rows plus counters for
    the conversation-message rows, processing-log rows, and
    campaign.update_stats() calls the coordinator performs. -/
structure DB where
  rows : List CampaignLeadRow
  conversation_rows : Nat
  log_rows : Nat
  stats_updates : Nat
deriving DecidableEq, Repr

def DB.updateRow (db : DB) (row : CampaignLeadRow) : DB :=
  { db with rows := db.rows.map (fun r => if r.id == row.id then row else r) }

/-- process_campaign_lead_with_graph (graph.py 301-442).  Graph building and
    graph execution are abstracted into `exec`, invoked on the selected
    topology; `Except.error e` is an uncaught exception whose str is `e`. -/
def process_campaign_lead_with_graph
    (exec : Topology → CampaignLeadState → Except String CampaignLeadState)
    (now : String) (db : DB) (campaign_lead_id : Nat) : DB × RunResult :=
  match db.rows.find? (fun r => r.id == campaign_lead_id) with
  | none =>
    -- raise ValueError, caught by the except block; the re-query also finds
    -- nothing, so no row is updated and no stats run
    (db, { success := false, status := "failed", sms_sent := none
           voice_call_made := none
           error_message := "CampaignLead " ++ toString campaign_lead_id ++ " not found" })
  | some row =>
    let row1 := { row with status := "processing" }
    let db1 := db.updateRow row1
    let initial_state := initialize_lead_state row1 row1.campaign row1.lead
    match exec (selected_topology initial_state row1.campaign) initial_state with
    | Except.ok fs =>
      let row2 := { row1 with
        status := fs.status, sms_sent := fs.sms_sent, sms_message := fs.sms_message
        voice_call_made := fs.voice_call_made, error_message := fs.error_message
        trace_id := fs.trace_id, processed_at := some now }
      let db2 := db1.updateRow row2
      let db3 := { db2 with
        conversation_rows := db2.conversation_rows + fs.conversation_history.length
        log_rows := db2.log_rows + fs.processing_logs.length
        stats_updates := db2.stats_updates + 1 }
      (db3, { success := fs.status == "completed", status := fs.status
              sms_sent := some fs.sms_sent, voice_call_made := some fs.voice_call_made
              error_message := fs.error_message })
    | Except.error e =>
      let row2 := { row1 with
        status := "failed", error_message := e, processed_at := some now }
      let db2 := db1.updateRow row2
      let db3 := { db2 with stats_updates := db2.stats_updates + 1 }
      (db3, { success := false, status := "failed", sms_sent := none
              voice_call_made := none, error_message := e })

/-! ### Concrete sample values used by the witnesses -/

def settingsOff : Settings :=
  { enforce_working_hours := false, working_hours_start := 9
    working_hours_end := 23, allow_weekend_sending := true }

def genOk (msg : String) : GenResult :=
  { success := true, message := msg, cost := 0, error := none }

def genFail (err : String) : GenResult :=
  { success := false, message := "", cost := 0, error := some err }

def envBase : Env :=
  { settings := settingsOff, hour := 10, weekday := 2
    now_iso := "2026-01-01T10:00:00"
    gen_sms := Except.ok (genOk "Hi Jane")
    send_sms := Except.ok { success := true, error := "" }
    gen_creative := Except.ok (genOk "Hi Jane")
    send_det := Except.ok { success := true, error := "" } }

def sBase : CampaignLeadState :=
  { campaign_lead_id := "1", campaign_id := "1", lead_id := "1"
    lead_data := [("name", "Jane"), ("phone", "+15550100"), ("email", ""),
                  ("company", ""), ("notes", "")]
    agent_type := "sms", use_a2a := false
    creative_agent_id := "", creative_agent_prompt := "p", creative_agent_model := "m"
    deterministic_agent_id := "", deterministic_agent_prompt := "p"
    deterministic_agent_model := "m", deterministic_agent_tools := []
    sms_system_prompt := "sp", sms_temperature := 0
    validation_passed := false, validation_errors := []
    sms_sent := false, sms_message := "", sms_error := "", sms_cost := 0
    voice_call_made := false, voice_call_id := "", voice_error := "", voice_cost := 0
    enrichment_data := [], enrichment_error := ""
    processing_logs := [], conversation_history := []
    trace_id := "", status := "pending", error_message := "" }

/-! ### Claims -/

/-- Shared helper: finalize on a validation failure. -/
theorem finalize_node_invalid (env : Env) (s : CampaignLeadState)
    (h : s.validation_passed = false) :
    (finalize_node env s).status = "failed" ∧
    (finalize_node env s).error_message = String.intercalate "; " s.validation_errors := by
  simp [finalize_node, h]

/-- C1: whenever validation_passed is false, finalize_node sets status to
    "failed" and error_message to the validation errors joined by "; ",
    for every agent_type. -/
theorem C1_finalize_validation_failed (env : Env) (s : CampaignLeadState)
    (h : s.validation_passed = false) :
    (finalize_node env s).status = "failed" ∧
    (finalize_node env s).error_message = String.intercalate "; " s.validation_errors :=
  finalize_node_invalid env s h

def sC1 : CampaignLeadState :=
  { sBase with agent_type := "both"
               validation_errors := ["Missing phone number", "Missing name"] }

theorem C1_witness :
    sC1.validation_passed = false ∧
    ((finalize_node envBase sC1).status = "failed" ∧
     (finalize_node envBase sC1).error_message =
       String.intercalate "; " sC1.validation_errors) :=
  ⟨rfl, C1_finalize_validation_failed envBase sC1 rfl⟩

/-- C2: with validation passed and agent_type "both", finalize_node yields
    "completed" iff both sms_sent and voice_call_made hold; otherwise it
    yields "failed" with the failing channels' errors combined. -/
theorem C2_finalize_both (env : Env) (s : CampaignLeadState)
    (hp : s.validation_passed = true) (ht : s.agent_type = "both") :
    ((finalize_node env s).status = "completed" ↔
      (s.sms_sent = true ∧ s.voice_call_made = true)) ∧
    (¬(s.sms_sent = true ∧ s.voice_call_made = true) →
      (finalize_node env s).status = "failed" ∧
      (finalize_node env s).error_message = String.intercalate "; "
        ((if s.sms_sent then [] else ["SMS: " ++ s.sms_error]) ++
         (if s.voice_call_made then [] else ["Voice: " ++ s.voice_error]))) := by
  cases hs : s.sms_sent <;> cases hv : s.voice_call_made <;>
    simp [finalize_node, hp, ht, hs, hv]

def sC2 : CampaignLeadState :=
  { sBase with validation_passed := true, agent_type := "both"
               sms_sent := true, voice_call_made := false
               voice_error := "no line available" }

theorem C2_witness :
    sC2.validation_passed = true ∧ sC2.agent_type = "both" ∧
    (((finalize_node envBase sC2).status = "completed" ↔
       (sC2.sms_sent = true ∧ sC2.voice_call_made = true)) ∧
     (¬(sC2.sms_sent = true ∧ sC2.voice_call_made = true) →
       (finalize_node envBase sC2).status = "failed" ∧
       (finalize_node envBase sC2).error_message = String.intercalate "; "
         ((if sC2.sms_sent then [] else ["SMS: " ++ sC2.sms_error]) ++
          (if sC2.voice_call_made then [] else ["Voice: " ++ sC2.voice_error])))) :=
  ⟨rfl, rfl, C2_finalize_both envBase sC2 rfl rfl⟩

/-- The A2A router restated from the claim's own wording, to be compared
    with the source-derived route_a2a_workflow. -/
def route_a2a_claim (s : CampaignLeadState) : String :=
  if s.validation_passed = false then "finalize"
  else if s.sms_message = "" then "creative"
  else if s.sms_sent = false then "deterministic"
  else "finalize"

/-- C4: the A2A router returns exactly finalize / creative / deterministic /
    finalize according to validation, message presence, and sent flag. -/
theorem C4_route_a2a_exact (s : CampaignLeadState) :
    route_a2a_workflow s = route_a2a_claim s := by
  by_cases hv : s.validation_passed = false
  · simp [route_a2a_workflow, route_a2a_claim, hv]
  · by_cases hm : s.sms_message = ""
    · simp_all [route_a2a_workflow, route_a2a_claim]
    · cases hs : s.sms_sent <;> simp_all [route_a2a_workflow, route_a2a_claim]

/-- The router function actually wired at a conditional-edge source of a
    graph (the identity used to compare the two A2A call points). -/
def condRouterOf (g : Graph) (n : String) : CampaignLeadState → String :=
  match g.condEdges.find? (fun c => c.src == n) with
  | some c => c.router
  | none => fun _ => ""

/-- C5: the A2A router is a pure function of the state: the router wired
    post-validate and the router wired post-handoff agree on every state,
    and two calls on the same state return the same label. -/
theorem C5_route_a2a_consistent (env : Env) (s : CampaignLeadState) :
    condRouterOf (create_a2a_campaign_lead_graph env) "validate" s =
      condRouterOf (create_a2a_campaign_lead_graph env) "handoff" s ∧
    route_a2a_workflow s = route_a2a_workflow s :=
  ⟨rfl, rfl⟩

/-- Abbreviation for the append-only contract of a single node function. -/
def AppendOnly (f : CampaignLeadState → CampaignLeadState) : Prop :=
  ∀ s : CampaignLeadState,
    s.processing_logs <+: (f s).processing_logs ∧
    s.conversation_history <+: (f s).conversation_history

theorem appendOnly_validate (env : Env) : AppendOnly (validate_lead_node env) := by
  intro s
  refine ⟨?_, ?_⟩ <;> simp [validate_lead_node]

theorem appendOnly_sms (env : Env) : AppendOnly (sms_agent_node env) := by
  intro s
  unfold sms_agent_node
  cases hg : env.gen_sms with
  | error e => refine ⟨?_, ?_⟩ <;> simp
  | ok r =>
    cases hr : r.success with
    | false => refine ⟨?_, ?_⟩ <;> simp [hr]
    | true =>
      cases hs : env.send_sms with
      | error e => refine ⟨?_, ?_⟩ <;> simp [hr]
      | ok sr => refine ⟨?_, ?_⟩ <;> simp [hr]

theorem appendOnly_voice (env : Env) : AppendOnly (voice_agent_node env) := by
  intro s
  refine ⟨?_, ?_⟩ <;> simp [voice_agent_node]

theorem appendOnly_enrichment (env : Env) : AppendOnly (enrichment_node env) := by
  intro s
  refine ⟨?_, ?_⟩ <;> simp [enrichment_node]

theorem appendOnly_finalize (env : Env) : AppendOnly (finalize_node env) := by
  intro s
  unfold finalize_node
  refine ⟨?_, ?_⟩ <;> (split_ifs <;> simp)

theorem appendOnly_creative (env : Env) : AppendOnly (a2a_creative_agent_node env) := by
  intro s
  unfold a2a_creative_agent_node
  cases ha : s.use_a2a with
  | false => refine ⟨?_, ?_⟩ <;> simp [ha, List.prefix_rfl]
  | true =>
    cases hg : env.gen_creative with
    | error e => refine ⟨?_, ?_⟩ <;> simp [ha]
    | ok r =>
      cases hr : r.success with
      | false => refine ⟨?_, ?_⟩ <;> simp [ha, hr]
      | true => refine ⟨?_, ?_⟩ <;> simp [ha, hr]

theorem appendOnly_deterministic (env : Env) :
    AppendOnly (a2a_deterministic_agent_node env) := by
  intro s
  unfold a2a_deterministic_agent_node
  cases ha : s.use_a2a with
  | false => refine ⟨?_, ?_⟩ <;> simp [ha, List.prefix_rfl]
  | true =>
    by_cases hm : s.sms_message = ""
    · refine ⟨?_, ?_⟩ <;> simp [ha, hm, List.prefix_rfl]
    · cases hs : env.send_det with
      | error e => refine ⟨?_, ?_⟩ <;> simp [ha, hm]
      | ok sr => refine ⟨?_, ?_⟩ <;> simp [ha, hm]

theorem appendOnly_handoff (env : Env) : AppendOnly (a2a_handoff_node env) := by
  intro s
  refine ⟨?_, ?_⟩ <;> simp [a2a_handoff_node]

/-- The executor preserves the append-only contract: whatever the walk does,
    the initial processing_logs and conversation_history remain a structural
    prefix of the final ones. -/
theorem runFrom_append_only (g : Graph)
    (hg : ∀ p ∈ g.nodes, AppendOnly p.2) :
    ∀ fuel cur s tr,
      s.processing_logs <+: (runFrom g fuel cur s tr).state.processing_logs ∧
      s.conversation_history <+: (runFrom g fuel cur s tr).state.conversation_history := by
  intro fuel
  induction fuel with
  | zero =>
    intro cur s tr
    exact ⟨List.prefix_rfl, List.prefix_rfl⟩
  | succ n ih =>
    intro cur s tr
    rw [runFrom]
    cases hfind : g.nodes.find? (fun p => p.1 == cur) with
    | none => exact ⟨List.prefix_rfl, List.prefix_rfl⟩
    | some p =>
      have hp := hg p (List.mem_of_find?_eq_some hfind) s
      simp only []
      cases hce : g.condEdges.find? (fun c => c.src == cur) with
      | some c =>
        simp only []
        cases hm : c.mapping.find? (fun m => m.1 == c.router (p.2 s)) with
        | none => simpa using hp
        | some m =>
          by_cases hend : (m.2 == "__end__") = true
          · simp only [hend, if_true]
            simpa using hp
          · simp only [hend, if_false, Bool.false_eq_true]
            have hrec := ih m.2 (p.2 s) (tr ++ [cur])
            exact ⟨hp.1.trans hrec.1, hp.2.trans hrec.2⟩
      | none =>
        cases he : g.edges.find? (fun e => e.1 == cur) with
        | none => simpa using hp
        | some e =>
          by_cases hend : (e.2 == "__end__") = true
          · simp only [hend, if_true]
            simpa using hp
          · simp only [hend, if_false, Bool.false_eq_true]
            have hrec := ih e.2 (p.2 s) (tr ++ [cur])
            exact ⟨hp.1.trans hrec.1, hp.2.trans hrec.2⟩

theorem static_nodes_append_only (env : Env) :
    ∀ p ∈ (create_campaign_lead_graph env).nodes, AppendOnly p.2 := by
  intro p hp
  simp [create_campaign_lead_graph] at hp
  rcases hp with rfl | rfl | rfl | rfl
  · exact appendOnly_validate env
  · exact appendOnly_sms env
  · exact appendOnly_voice env
  · exact appendOnly_finalize env

theorem a2a_nodes_append_only (env : Env) :
    ∀ p ∈ (create_a2a_campaign_lead_graph env).nodes, AppendOnly p.2 := by
  intro p hp
  simp [create_a2a_campaign_lead_graph] at hp
  rcases hp with rfl | rfl | rfl | rfl | rfl
  · exact appendOnly_validate env
  · exact appendOnly_creative env
  · exact appendOnly_deterministic env
  · exact appendOnly_handoff env
  · exact appendOnly_finalize env

theorem dyn_nodes_append_only (env : Env) (cfg : WorkflowConfig) :
    ∀ p ∈ (create_dynamic_campaign_lead_graph env cfg).nodes, AppendOnly p.2 := by
  intro p hp
  simp [create_dynamic_campaign_lead_graph, List.mem_filterMap] at hp
  obtain ⟨n, _, hn⟩ := hp
  cases hc : classify_node n with
  | none => rw [hc] at hn; simp at hn
  | some k =>
    rw [hc] at hn
    simp at hn
    rw [← hn]
    unfold dyn_node_fn
    split
    · exact appendOnly_validate env
    · split
      · exact appendOnly_sms env
      · split
        · exact appendOnly_voice env
        · split
          · exact appendOnly_enrichment env
          · exact appendOnly_finalize env

/-- C3: processing_logs and conversation_history are append-only.  Every
    node of the node library returns a state whose logs/history extend the
    prior ones as a structurally equal prefix, and consequently, for any
    walk of any of the three graph topologies, the logs/history at the
    start of the run are a structural prefix of the logs/history at the
    end (so their lengths never decrease and no prior entry is mutated or
    removed). -/
theorem C3_logs_append_only (env : Env) :
    (∀ s, s.processing_logs <+: (validate_lead_node env s).processing_logs ∧
          s.conversation_history <+: (validate_lead_node env s).conversation_history) ∧
    (∀ s, s.processing_logs <+: (sms_agent_node env s).processing_logs ∧
          s.conversation_history <+: (sms_agent_node env s).conversation_history) ∧
    (∀ s, s.processing_logs <+: (voice_agent_node env s).processing_logs ∧
          s.conversation_history <+: (voice_agent_node env s).conversation_history) ∧
    (∀ s, s.processing_logs <+: (enrichment_node env s).processing_logs ∧
          s.conversation_history <+: (enrichment_node env s).conversation_history) ∧
    (∀ s, s.processing_logs <+: (finalize_node env s).processing_logs ∧
          s.conversation_history <+: (finalize_node env s).conversation_history) ∧
    (∀ s, s.processing_logs <+: (a2a_creative_agent_node env s).processing_logs ∧
          s.conversation_history <+: (a2a_creative_agent_node env s).conversation_history) ∧
    (∀ s, s.processing_logs <+: (a2a_deterministic_agent_node env s).processing_logs ∧
          s.conversation_history <+: (a2a_deterministic_agent_node env s).conversation_history) ∧
    (∀ s, s.processing_logs <+: (a2a_handoff_node env s).processing_logs ∧
          s.conversation_history <+: (a2a_handoff_node env s).conversation_history) ∧
    (∀ fuel s,
      s.processing_logs <+:
        (runGraph (create_campaign_lead_graph env) fuel s).state.processing_logs ∧
      s.conversation_history <+:
        (runGraph (create_campaign_lead_graph env) fuel s).state.conversation_history) ∧
    (∀ fuel s,
      s.processing_logs <+:
        (runGraph (create_a2a_campaign_lead_graph env) fuel s).state.processing_logs ∧
      s.conversation_history <+:
        (runGraph (create_a2a_campaign_lead_graph env) fuel s).state.conversation_history) ∧
    (∀ cfg fuel s,
      s.processing_logs <+:
        (runGraph (create_dynamic_campaign_lead_graph env cfg) fuel s).state.processing_logs ∧
      s.conversation_history <+:
        (runGraph (create_dynamic_campaign_lead_graph env cfg) fuel s).state.conversation_history) :=
  ⟨appendOnly_validate env, appendOnly_sms env, appendOnly_voice env,
   appendOnly_enrichment env, appendOnly_finalize env, appendOnly_creative env,
   appendOnly_deterministic env, appendOnly_handoff env,
   fun fuel s => runFrom_append_only _ (static_nodes_append_only env) fuel _ s [],
   fun fuel s => runFrom_append_only _ (a2a_nodes_append_only env) fuel _ s [],
   fun cfg fuel s => runFrom_append_only _ (dyn_nodes_append_only env cfg) fuel _ s []⟩

/-- C6: the coordinator picks the A2A graph whenever use_a2a holds, else the
    dynamic graph whenever a workflow description is present, else the
    static graph; and use_a2a of the initialized state is exactly the
    conjunction of the two dual-agent ids being set on the campaign. -/
theorem C6_topology_priority (cl : CampaignLeadRow) (campaign : Campaign) (lead : Lead) :
    ((initialize_lead_state cl campaign lead).use_a2a = true ↔
      (natTruthy campaign.creative_agent_id = true ∧
       natTruthy campaign.deterministic_agent_id = true)) ∧
    (∀ st : CampaignLeadState,
      (st.use_a2a = true → selected_topology st campaign = Topology.a2a) ∧
      (st.use_a2a = false → campaign.workflow_config.isSome = true →
        selected_topology st campaign = Topology.dyn) ∧
      (st.use_a2a = false → campaign.workflow_config = none →
        selected_topology st campaign = Topology.stat)) := by
  constructor
  · simp [initialize_lead_state]
  · intro st
    refine ⟨?_, ?_, ?_⟩
    · intro h; simp [selected_topology, h]
    · intro h hw; simp [selected_topology, h, hw]
    · intro h hw; simp [selected_topology, h, hw]

def agentC6 : Agent := { system_prompt := "cp", model := "gpt-4o", tools := [] }

def campC6 : Campaign :=
  { id := 1, name := "c", agent_type := "both"
    creative_agent_id := some 2, creative_agent := some agentC6
    deterministic_agent_id := some 3, deterministic_agent := some agentC6
    agent_id := none, agent := none, sms_system_prompt := none
    sms_temperature := 70, workflow_config := none }

def leadC6 : Lead :=
  { id := 5, name := "Jane", phone := "+15550100", email := none
    company := none, notes := none }

def clC6 : CampaignLeadRow :=
  { id := 7, campaign := campC6, lead := leadC6, status := "pending"
    sms_sent := false, sms_message := "", voice_call_made := false
    error_message := "", trace_id := "", processed_at := none }

theorem C6_witness :
    (initialize_lead_state clC6 campC6 leadC6).use_a2a = true ∧
    selected_topology (initialize_lead_state clC6 campC6 leadC6) campC6 =
      Topology.a2a := by
  have h := C6_topology_priority clC6 campC6 leadC6
  have hu : (initialize_lead_state clC6 campC6 leadC6).use_a2a = true :=
    h.1.mpr ⟨rfl, rfl⟩
  exact ⟨hu, (h.2 _).1 hu⟩

/-- Shared helper: updating the found row leaves it findable, updated. -/
theorem find?_update_row (l : List CampaignLeadRow) (idv : Nat)
    (row new : CampaignLeadRow)
    (h : l.find? (fun r => r.id == idv) = some row) (hnew : new.id = row.id) :
    (l.map (fun r => if r.id == row.id then new else r)).find?
      (fun r => r.id == idv) = some new := by
  have hrow : row.id = idv := by
    have h2 := List.find?_some h
    simpa using h2
  induction l with
  | nil => simp at h
  | cons a t ih =>
    rw [List.map_cons]
    cases hpa : (a.id == idv) with
    | true =>
      have ha2 : a = row := by
        simp only [List.find?, hpa] at h
        exact Option.some_injective _ h
      subst ha2
      simp [List.find?, hnew, hrow]
    | false =>
      have h2 : t.find? (fun r => r.id == idv) = some row := by
        simpa only [List.find?, hpa] using h
      have hne2 : (a.id == row.id) = false := by
        simp only [hrow]
        exact hpa
      simp only [hne2, Bool.false_eq_true, if_false, List.find?, hpa]
      exact ih h2

/-- C9: when graph construction or execution raises, the coordinator still
    marks the persisted row failed with the exception's message, timestamps
    it, recomputes campaign stats once, and returns a failed RunResult. -/
theorem C9_coordinator_failure
    (exec : Topology → CampaignLeadState → Except String CampaignLeadState)
    (now : String) (db : DB) (cid : Nat) (row : CampaignLeadRow) (e : String)
    (hfind : db.rows.find? (fun r => r.id == cid) = some row)
    (hexec : exec
        (selected_topology
          (initialize_lead_state { row with status := "processing" }
            row.campaign row.lead) row.campaign)
        (initialize_lead_state { row with status := "processing" }
          row.campaign row.lead) = Except.error e) :
    (process_campaign_lead_with_graph exec now db cid).1.rows.find?
        (fun r => r.id == cid) =
      some { row with status := "failed", error_message := e
                      processed_at := some now } ∧
    (process_campaign_lead_with_graph exec now db cid).1.stats_updates =
      db.stats_updates + 1 ∧
    (process_campaign_lead_with_graph exec now db cid).2 =
      { success := false, status := "failed", sms_sent := none
        voice_call_made := none, error_message := e } := by
  unfold process_campaign_lead_with_graph
  rw [hfind]
  simp only []
  rw [hexec]
  simp only []
  refine ⟨?_, ?_, ?_⟩
  · have h1 := find?_update_row db.rows cid row
      { row with status := "processing" } hfind rfl
    have h2 := find?_update_row _ cid { row with status := "processing" }
      { row with status := "failed", error_message := e, processed_at := some now }
      h1 rfl
    exact h2
  · simp [DB.updateRow]
  · simp

/-- Step lemma: executing a node whose conditional edge routes to a
    non-END target. -/
theorem runFrom_succ_cond (g : Graph) (n : Nat) (cur : String)
    (s : CampaignLeadState) (tr : List String)
    (f : CampaignLeadState → CampaignLeadState) (c : CondEdge) (tgt : String)
    (hn : g.nodes.find? (fun p => p.1 == cur) = some (cur, f))
    (hc : g.condEdges.find? (fun cc => cc.src == cur) = some c)
    (hm : c.mapping.find? (fun m => m.1 == c.router (f s)) = some (c.router (f s), tgt))
    (hend : (tgt == "__end__") = false) :
    runFrom g (n + 1) cur s tr = runFrom g n tgt (f s) (tr ++ [cur]) := by
  rw [runFrom]
  rw [hn]
  simp only []
  rw [hc]
  simp only []
  rw [hm]
  simp only [hend, Bool.false_eq_true, if_false]

/-- Step lemma: a conditional router label absent from the mapping halts
    the walk with a routing error. -/
theorem runFrom_succ_badLabel (g : Graph) (n : Nat) (cur : String)
    (s : CampaignLeadState) (tr : List String)
    (f : CampaignLeadState → CampaignLeadState) (c : CondEdge)
    (hn : g.nodes.find? (fun p => p.1 == cur) = some (cur, f))
    (hc : g.condEdges.find? (fun cc => cc.src == cur) = some c)
    (hm : c.mapping.find? (fun m => m.1 == c.router (f s)) = none) :
    runFrom g (n + 1) cur s tr =
      ⟨Halt.badLabel cur (c.router (f s)), f s, tr ++ [cur]⟩ := by
  rw [runFrom]
  rw [hn]
  simp only []
  rw [hc]
  simp only []
  rw [hm]

/-- Step lemma: executing a node with only a plain edge to a non-END
    target. -/
theorem runFrom_succ_plain (g : Graph) (n : Nat) (cur : String)
    (s : CampaignLeadState) (tr : List String)
    (f : CampaignLeadState → CampaignLeadState) (tgt : String)
    (hn : g.nodes.find? (fun p => p.1 == cur) = some (cur, f))
    (hc : g.condEdges.find? (fun cc => cc.src == cur) = none)
    (he : g.edges.find? (fun e => e.1 == cur) = some (cur, tgt))
    (hend : (tgt == "__end__") = false) :
    runFrom g (n + 1) cur s tr = runFrom g n tgt (f s) (tr ++ [cur]) := by
  rw [runFrom]
  rw [hn]
  simp only []
  rw [hc]
  simp only []
  rw [he]
  simp only [hend, Bool.false_eq_true, if_false]

/-- Step lemma: executing a node whose plain edge goes to END. -/
theorem runFrom_succ_plain_end (g : Graph) (n : Nat) (cur : String)
    (s : CampaignLeadState) (tr : List String)
    (f : CampaignLeadState → CampaignLeadState)
    (hn : g.nodes.find? (fun p => p.1 == cur) = some (cur, f))
    (hc : g.condEdges.find? (fun cc => cc.src == cur) = none)
    (he : g.edges.find? (fun e => e.1 == cur) = some (cur, "__end__")) :
    runFrom g (n + 1) cur s tr = ⟨Halt.reachedEnd, f s, tr ++ [cur]⟩ := by
  rw [runFrom]
  rw [hn]
  simp only []
  rw [hc]
  simp only []
  rw [he]
  simp only [if_true]
  rfl

/-- C8: on any state that fails validation, the static single-agent graph
    routes straight from validate to finalize: the sms_agent node is never
    executed and the run terminates with status "failed". -/
theorem C8_validation_failure_skips_sms (env : Env) (s : CampaignLeadState)
    (h : validation_errors_of env s ≠ []) :
    route_after_validation (validate_lead_node env s) = "finalize" ∧
    (runGraph (create_campaign_lead_graph env) 10 s).trace = ["validate", "finalize"] ∧
    "sms_agent" ∉ (runGraph (create_campaign_lead_graph env) 10 s).trace ∧
    (runGraph (create_campaign_lead_graph env) 10 s).state.status = "failed" ∧
    (runGraph (create_campaign_lead_graph env) 10 s).halt = Halt.reachedEnd := by
  have hfalse : (validation_errors_of env s).isEmpty = false := by
    cases hl : validation_errors_of env s with
    | nil => exact absurd hl h
    | cons a t => rfl
  have hvp : (validate_lead_node env s).validation_passed = false := by
    simp [validate_lead_node, hfalse]
  have hroute : route_after_validation (validate_lead_node env s) = "finalize" := by
    simp [route_after_validation, hvp]
  have e1 : runFrom (create_campaign_lead_graph env) (9 + 1) "validate" s [] =
      runFrom (create_campaign_lead_graph env) 9 "finalize"
        (validate_lead_node env s) ["validate"] := by
    apply runFrom_succ_cond
    · rfl
    · rfl
    · simp only [hroute]
      rfl
    · rfl
  have e2 : runFrom (create_campaign_lead_graph env) (8 + 1) "finalize"
      (validate_lead_node env s) ["validate"] =
      ⟨Halt.reachedEnd, finalize_node env (validate_lead_node env s),
       ["validate"] ++ ["finalize"]⟩ := by
    apply runFrom_succ_plain_end
    · rfl
    · rfl
    · rfl
  have hrun : runGraph (create_campaign_lead_graph env) 10 s =
      ⟨Halt.reachedEnd, finalize_node env (validate_lead_node env s),
       ["validate", "finalize"]⟩ := e1.trans e2
  refine ⟨hroute, ?_, ?_, ?_, ?_⟩
  · rw [hrun]
  · rw [hrun]
    show ¬("sms_agent" ∈ (["validate", "finalize"] : List String))
    decide
  · rw [hrun]
    exact (finalize_node_invalid env (validate_lead_node env s) hvp).1
  · rw [hrun]

def sC8 : CampaignLeadState :=
  { sBase with lead_data := [("name", "Jane"), ("phone", "")] }

theorem C8_witness :
    validation_errors_of envBase sC8 ≠ [] ∧
    (route_after_validation (validate_lead_node envBase sC8) = "finalize" ∧
     (runGraph (create_campaign_lead_graph envBase) 10 sC8).trace =
       ["validate", "finalize"] ∧
     "sms_agent" ∉ (runGraph (create_campaign_lead_graph envBase) 10 sC8).trace ∧
     (runGraph (create_campaign_lead_graph envBase) 10 sC8).state.status = "failed" ∧
     (runGraph (create_campaign_lead_graph envBase) 10 sC8).halt = Halt.reachedEnd) :=
  ⟨by decide, C8_validation_failure_skips_sms envBase sC8 (by decide)⟩

/-- A serialized workflow containing an unrecognized node ("Mystery Step"):
    start -> validate -> mystery -> end. -/
def cfgC7 : WorkflowConfig where
  nodes := [{ id := "n1", label := "Start", ntype := some "input" },
            { id := "n2", label := "Validate Lead", ntype := none },
            { id := "n3", label := "Mystery Step", ntype := none },
            { id := "n4", label := "End", ntype := some "output" }]
  edges := [{ source := "n1", target := "n2" },
            { source := "n2", target := "n3" },
            { source := "n3", target := "n4" }]

/-- C7 counterexample: with the unrecognized node dropped, both edges
    touching it vanish, so the graph assembled from cfgC7 enters at
    validate but leaves the validate node with no outgoing edge and the
    finalize node with no incoming edge.  The final workflow.compile()
    therefore raises (dead-end / not-reachable validation) and dynamic
    graph construction aborts with an exception instead of producing a
    compiled graph, refuting the claim's "does not abort / still produces
    a compiled graph" and with it the reachability guarantee. -/
theorem C7_counterexample :
    (⟨"n3", "Mystery Step", none⟩ : WNode) ∈ cfgC7.nodes ∧
    isStartNode ⟨"n3", "Mystery Step", none⟩ = false ∧
    classify_node ⟨"n3", "Mystery Step", none⟩ = none ∧
    (create_dynamic_campaign_lead_graph envBase cfgC7).entry = "validate" ∧
    exceptOk (create_dynamic_campaign_lead_graph_compiled envBase cfgC7) = false := by
  refine ⟨by decide, by decide, by decide, by decide, by decide⟩

theorem classify_node_kinds (n : WNode) (k : String) (h : classify_node n = some k) :
    k ∈ ["finalize", "validate", "sms_agent", "voice_agent", "enrichment"] := by
  unfold classify_node at h
  simp only [] at h
  split_ifs at h <;> simp_all

/-- Shared helper: an unrecognized, non-start node with a unique id gets no
    entry in the dynamic node mapping. -/
theorem dyn_mapping_skips (cfg : WorkflowConfig) (bad : WNode)
    (hclass : classify_node bad = none)
    (huniq : ∀ n ∈ cfg.nodes, n.id = bad.id → n = bad) :
    mlookup (dyn_node_mapping cfg) bad.id = none := by
  have hfind : (dyn_node_mapping cfg).find? (fun p => p.1 == bad.id) = none := by
    rw [List.find?_eq_none]
    intro x hx hbeq
    simp only [dyn_node_mapping, List.mem_filterMap] at hx
    obtain ⟨n, hn, hcn⟩ := hx
    cases hck : classify_node n with
    | none =>
      rw [hck] at hcn
      exact Option.noConfusion hcn
    | some k =>
      rw [hck] at hcn
      have hx2 : (n.id, k) = x := Option.some_injective _ hcn
      have hnid : n.id = bad.id := by
        rw [← hx2] at hbeq
        simpa using hbeq
      have hnb : n = bad := huniq n hn hnid
      rw [hnb, hclass] at hck
      exact Option.noConfusion hck
  unfold mlookup
  rw [hfind]
  rfl

/-- Shared helper: a non-start node with a unique id is never treated as a
    start marker when it appears as an edge source. -/
theorem isStartSource_of_bad (cfg : WorkflowConfig) (bad : WNode)
    (hstart : isStartNode bad = false)
    (huniq : ∀ n ∈ cfg.nodes, n.id = bad.id → n = bad) :
    isStartSource cfg bad.id = false := by
  unfold isStartSource
  cases hf : cfg.nodes.find? (fun n => n.id == bad.id) with
  | none => rfl
  | some n =>
    have hmemn := List.mem_of_find?_eq_some hf
    have hpred := List.find?_some hf
    have hnid : n.id = bad.id := by simpa using hpred
    have hnb : n = bad := huniq n hmemn hnid
    subst hnb
    unfold isStartNode at hstart
    rcases Bool.or_eq_false_iff.mp hstart with ⟨h1, h2⟩
    simp [h1, h2]

/-- Shared helper: compile-time validation never alters an accepted graph;
    it either rejects or returns its input. -/
theorem graph_compile_ok_eq (g g2 : Graph) (h : graph_compile g = Except.ok g2) :
    g2 = g := by
  unfold graph_compile at h
  split at h
  · exact Except.noConfusion h
  · split at h
    · exact Except.noConfusion h
    · split at h
      · exact Except.noConfusion h
      · split at h
        · exact Except.noConfusion h
        · exact (Except.ok.inj h).symm

/-- C7 amended: for every workflow description (with distinct node ids)
    containing a node with an unrecognized label, the assembly phase skips
    that node: it gets no mapping entry, contributes no node to the
    assembled graph (every assembled node is a recognized kind), and every
    config edge touching it contributes neither an entry point, nor a
    conditional edge, nor a plain edge.  Construction as a whole, however,
    is not guaranteed to produce a compiled graph: the final
    workflow.compile() validates the assembled graph and raises when the
    dropped edges leave a dead-end or unreachable node (see the
    counterexample), so the original "does not abort / reaches finalize"
    conjuncts are dropped; when compile() does accept, the compiled graph
    is exactly the assembled one. -/
theorem C7_amended_lenient_skip (env : Env) (cfg : WorkflowConfig) (bad : WNode)
    (hmem : bad ∈ cfg.nodes) (hstart : isStartNode bad = false)
    (hclass : classify_node bad = none)
    (huniq : ∀ n ∈ cfg.nodes, n.id = bad.id → n = bad) :
    mlookup (dyn_node_mapping cfg) bad.id = none ∧
    (∀ p ∈ (create_dynamic_campaign_lead_graph env cfg).nodes,
       p.1 ∈ ["finalize", "validate", "sms_agent", "voice_agent", "enrichment"]) ∧
    (∀ e ∈ cfg.edges, e.source = bad.id ∨ e.target = bad.id →
       dyn_entry_contrib cfg e = none ∧ dyn_cond_contrib cfg e = none ∧
       dyn_plain_contrib cfg e = none) ∧
    (∀ g, create_dynamic_campaign_lead_graph_compiled env cfg = Except.ok g →
       g = create_dynamic_campaign_lead_graph env cfg) := by
  have hmap := dyn_mapping_skips cfg bad hclass huniq
  have hss := isStartSource_of_bad cfg bad hstart huniq
  refine ⟨hmap, ?_, ?_, fun g hg => graph_compile_ok_eq _ g hg⟩
  · intro p hp
    simp only [create_dynamic_campaign_lead_graph, List.mem_filterMap] at hp
    obtain ⟨n, hn, hcn⟩ := hp
    cases hck : classify_node n with
    | none =>
      rw [hck] at hcn
      exact Option.noConfusion hcn
    | some k =>
      rw [hck] at hcn
      have hx2 : (k, dyn_node_fn env k) = p := Option.some_injective _ hcn
      have hk := classify_node_kinds n k hck
      rw [← hx2]
      simpa using hk
  · intro e he hor
    rcases hor with hsrc | htgt
    · exact ⟨by simp [dyn_entry_contrib, hsrc, hss],
             by simp [dyn_cond_contrib, hsrc, hss, hmap],
             by simp [dyn_plain_contrib, hsrc, hss, hmap]⟩
    · refine ⟨?_, ?_, ?_⟩
      · simp [dyn_entry_contrib, htgt, hmap]
      · cases hms : mlookup (dyn_node_mapping cfg) e.source <;>
          simp [dyn_cond_contrib, htgt, hmap, hms]
      · cases hms : mlookup (dyn_node_mapping cfg) e.source <;>
          simp [dyn_plain_contrib, htgt, hmap, hms]

theorem C7_amended_witness :
    mlookup (dyn_node_mapping cfgC7) "n3" = none ∧
    (∀ p ∈ (create_dynamic_campaign_lead_graph envBase cfgC7).nodes,
       p.1 ∈ ["finalize", "validate", "sms_agent", "voice_agent", "enrichment"]) ∧
    (∀ e ∈ cfgC7.edges, e.source = "n3" ∨ e.target = "n3" →
       dyn_entry_contrib cfgC7 e = none ∧ dyn_cond_contrib cfgC7 e = none ∧
       dyn_plain_contrib cfgC7 e = none) ∧
    (∀ g, create_dynamic_campaign_lead_graph_compiled envBase cfgC7 = Except.ok g →
       g = create_dynamic_campaign_lead_graph envBase cfgC7) :=
  C7_amended_lenient_skip envBase cfgC7 ⟨"n3", "Mystery Step", none⟩
    (by decide) (by decide) (by decide) (by decide)

/-- C10: in the A2A graph, when the creative agent fails to produce a
    message, the router consulted after the handoff node returns "creative",
    a label the handoff conditional edges do not map, so the walk halts with
    a routing error instead of reaching finalize. -/
theorem C10_creative_failure_raises (env : Env) (s : CampaignLeadState)
    (gr : GenResult)
    (hval : validation_errors_of env s = []) (hmsg : s.sms_message = "")
    (ha2a : s.use_a2a = true)
    (hgen : env.gen_creative = Except.ok gr) (hfail : gr.success = false) :
    route_a2a_workflow
        (a2a_handoff_node env (a2a_creative_agent_node env (validate_lead_node env s)))
      = "creative" ∧
    (runGraph (create_a2a_campaign_lead_graph env) 10 s).halt =
      Halt.badLabel "handoff" "creative" ∧
    "finalize" ∉ (runGraph (create_a2a_campaign_lead_graph env) 10 s).trace := by
  have hvp1 : (validate_lead_node env s).validation_passed = true := by
    simp [validate_lead_node, hval]
  have hm1 : (validate_lead_node env s).sms_message = "" := by
    simp [validate_lead_node, hmsg]
  have hu1 : (validate_lead_node env s).use_a2a = true := by
    simp [validate_lead_node, ha2a]
  have hroute1 : route_a2a_workflow (validate_lead_node env s) = "creative" := by
    simp [route_a2a_workflow, hvp1, hm1]
  have hvp2 : (a2a_creative_agent_node env (validate_lead_node env s)).validation_passed
      = true := by
    simp [a2a_creative_agent_node, hu1, hgen, hfail, hvp1]
  have hm2 : (a2a_creative_agent_node env (validate_lead_node env s)).sms_message
      = "" := by
    simp [a2a_creative_agent_node, hu1, hgen, hfail, hm1]
  have hroute3 : route_a2a_workflow
      (a2a_handoff_node env (a2a_creative_agent_node env (validate_lead_node env s)))
      = "creative" := by
    simp [route_a2a_workflow, a2a_handoff_node, hvp2, hm2]
  have e1 : runFrom (create_a2a_campaign_lead_graph env) (9 + 1) "validate" s [] =
      runFrom (create_a2a_campaign_lead_graph env) 9 "creative_agent"
        (validate_lead_node env s) ["validate"] := by
    apply runFrom_succ_cond
    · rfl
    · rfl
    · simp only [hroute1]
      rfl
    · rfl
  have e2 : runFrom (create_a2a_campaign_lead_graph env) (8 + 1) "creative_agent"
      (validate_lead_node env s) ["validate"] =
      runFrom (create_a2a_campaign_lead_graph env) 8 "handoff"
        (a2a_creative_agent_node env (validate_lead_node env s))
        (["validate"] ++ ["creative_agent"]) := by
    apply runFrom_succ_plain
    · rfl
    · rfl
    · rfl
    · rfl
  have e3 : runFrom (create_a2a_campaign_lead_graph env) (7 + 1) "handoff"
      (a2a_creative_agent_node env (validate_lead_node env s))
      (["validate"] ++ ["creative_agent"]) =
      ⟨Halt.badLabel "handoff"
         (route_a2a_workflow (a2a_handoff_node env
           (a2a_creative_agent_node env (validate_lead_node env s)))),
       a2a_handoff_node env (a2a_creative_agent_node env (validate_lead_node env s)),
       (["validate"] ++ ["creative_agent"]) ++ ["handoff"]⟩ := by
    exact runFrom_succ_badLabel (create_a2a_campaign_lead_graph env) 7 "handoff"
      (a2a_creative_agent_node env (validate_lead_node env s))
      (["validate"] ++ ["creative_agent"]) (a2a_handoff_node env)
      { src := "handoff", router := route_a2a_workflow
        mapping := [("deterministic", "deterministic_agent"), ("finalize", "finalize")] }
      rfl rfl (by simp only [hroute3]; rfl)
  have hrun : runGraph (create_a2a_campaign_lead_graph env) 10 s =
      ⟨Halt.badLabel "handoff"
         (route_a2a_workflow (a2a_handoff_node env
           (a2a_creative_agent_node env (validate_lead_node env s)))),
       a2a_handoff_node env (a2a_creative_agent_node env (validate_lead_node env s)),
       ["validate", "creative_agent", "handoff"]⟩ :=
    e1.trans (e2.trans e3)
  refine ⟨hroute3, ?_, ?_⟩
  · rw [hrun]
    simp only [hroute3]
  · rw [hrun]
    show ¬("finalize" ∈ (["validate", "creative_agent", "handoff"] : List String))
    decide

def sC10 : CampaignLeadState := { sBase with use_a2a := true }

def envC10 : Env :=
  { envBase with gen_creative := Except.ok (genFail "model unavailable") }

theorem C10_witness :
    validation_errors_of envC10 sC10 = [] ∧ sC10.sms_message = "" ∧
    sC10.use_a2a = true ∧
    envC10.gen_creative = Except.ok (genFail "model unavailable") ∧
    (genFail "model unavailable").success = false ∧
    (route_a2a_workflow
        (a2a_handoff_node envC10
          (a2a_creative_agent_node envC10 (validate_lead_node envC10 sC10)))
      = "creative" ∧
    (runGraph (create_a2a_campaign_lead_graph envC10) 10 sC10).halt =
      Halt.badLabel "handoff" "creative" ∧
    "finalize" ∉ (runGraph (create_a2a_campaign_lead_graph envC10) 10 sC10).trace) :=
  ⟨by decide, rfl, rfl, rfl, rfl,
   C10_creative_failure_raises envC10 sC10 (genFail "model unavailable")
     (by decide) rfl rfl rfl rfl⟩

def dbC9 : DB :=
  { rows := [clC6], conversation_rows := 0, log_rows := 0, stats_updates := 0 }

def execFail : Topology → CampaignLeadState → Except String CampaignLeadState :=
  fun _ _ => Except.error "boom"

theorem C9_witness :
    (process_campaign_lead_with_graph execFail "t1" dbC9 7).1.rows.find?
        (fun r => r.id == 7) =
      some { clC6 with status := "failed", error_message := "boom"
                       processed_at := some "t1" } ∧
    (process_campaign_lead_with_graph execFail "t1" dbC9 7).1.stats_updates =
      dbC9.stats_updates + 1 ∧
    (process_campaign_lead_with_graph execFail "t1" dbC9 7).2 =
      { success := false, status := "failed", sms_sent := none
        voice_call_made := none, error_message := "boom" } :=
  C9_coordinator_failure execFail "t1" dbC9 7 clC6 "boom" rfl rfl

end Orchestrator
